import Mathlib

/-!
Verification development for the Entur Situation Exchange integration.

The definitions below are a shallow embedding of the Python sources:
  - custom_components/entur_sx/api.py      (EnturSXApiClient._parse_response)
  - custom_components/entur_sx/sensor.py   (EnturSXSensor.native_value)
  - custom_components/entur_sx/coordinator.py
      (EnturSXDataUpdateCoordinator._async_update_data, _handle_throttle,
       _track_disruption_changes)

Timestamps: the Python code carries ISO-8601 strings and converts them with
datetime.fromisoformat(...).timestamp(); we model a timestamp string by any
string that an abstract partial parser understands.  The parser is
instantiated with a plain integer parser (so "10" denotes the instant 10);
a parse failure (none) models the ValueError raised by fromisoformat.
-/

namespace EnturSX

/-- const.py: STATE_NORMAL -/
def STATE_NORMAL : String := "Normal service"

/-- const.py: STATUS_PLANNED -/
def STATUS_PLANNED : String := "planned"

/-- const.py: STATUS_OPEN -/
def STATUS_OPEN : String := "open"

/-- const.py: STATUS_EXPIRED -/
def STATUS_EXPIRED : String := "expired"

/-- Decimal digit list to number; none when a non-digit appears. -/
def natOfDigits : List Char → Nat → Option Nat
  | [], acc => some acc
  | c :: cs, acc =>
    if c.isDigit then natOfDigits cs (acc * 10 + (c.toNat - 48)) else none

/-- Model of datetime.fromisoformat(s).timestamp(): a partial map from
timestamp strings to instants; none models the raised ValueError.  It is
instantiated with a plain integer parser over the character list (so
"10" denotes the instant 10 and "2024-x" fails to parse). -/
def parseTimestamp (s : String) : Option Int :=
  match s.data with
  | [] => none
  | '-' :: rest =>
    if rest.isEmpty then none
    else (natOfDigits rest 0).map (fun n => -(n : Int))
  | l => (natOfDigits l 0).map (fun n => (n : Int))

/-- Model of str.lower() (api.py 114): characterwise lowering. -/
def lowerString (s : String) : String := String.mk (s.data.map Char.toLower)

/-- Model of the Python slice s[:n] (and of String.take): the first n
characters. -/
def strTake (s : String) (n : Nat) : String := String.mk (s.data.take n)

/-- One parsed deviation dict as appended by _parse_response (api.py 182-189):
keys valid_from, valid_to, summary, description, status, progress. -/
structure Item where
  valid_from : String
  valid_to : Option String
  summary : String
  description : String
  status : String
  progress : String
deriving DecidableEq, Repr

/-- One raw PtSituationElement as read by _parse_response (api.py 110-180).
Progress defaults to "" when absent (element.get("Progress", "")).
Networks is Affects.Networks: none models an absent or falsy value
(api.py 119 "if not networks: continue"); when present it holds the
AffectedNetwork list, each network being its list of LineRef values
(a none value models an AffectedLine whose LineRef.value is absent).
ValidityPeriod entries are (StartTime?, EndTime?) string pairs.
Summary and Description hold the value fields of the respective lists. -/
structure PtSituationElement where
  Progress : String
  Networks : Option (List (List (Option String)))
  ValidityPeriod : List (Option String × Option String)
  Summary : List String
  Description : List String
deriving DecidableEq, Repr

/-- Status derivation of api.py lines 134-160, starting from the parsed
start instant.  The end timestamp is parsed lazily, exactly as in the
source: only once now is not before the start and EndTime is a truthy
(nonempty) string; Except.error models the ValueError escaping to the
per-line handler.  The Progress comparison lowercases first
(api.py 114). -/
def statusOfElement (now startTs : Int) (endTime : Option String)
    (progress : String) : Except Unit String :=
  if now < startTs then
    Except.ok STATUS_PLANNED
  else if endTime.getD "" ≠ "" then
    match parseTimestamp (endTime.getD "") with
    | none => Except.error ()
    | some endTs =>
      if now > endTs then Except.ok STATUS_EXPIRED
      else if lowerString progress = "closed" then Except.ok STATUS_EXPIRED
      else Except.ok STATUS_OPEN
  else
    if lowerString progress = "closed" then Except.ok STATUS_EXPIRED
    else Except.ok STATUS_OPEN

/-- Processing of one PtSituationElement for one watched line
(api.py 110-191).  Entries with no Networks, no ValidityPeriod or a
falsy StartTime are skipped (ok []); an unparseable StartTime or
EndTime raises (error), which the caller turns into a per-line abort.
A matching element is duplicated once per matching AffectedLine
occurrence (the source deliberately does not break out of the loop). -/
def processElement (now : Int) (lookFor : String) (e : PtSituationElement) :
    Except Unit (List Item) :=
  match e.Networks with
  | none => Except.ok []
  | some affectedNetworks =>
    match e.ValidityPeriod with
    | [] => Except.ok []
    | vp :: _ =>
      let startTime := vp.1.getD ""
      if startTime = "" then Except.ok []
      else
        match parseTimestamp startTime with
        | none => Except.error ()
        | some startTs =>
          match statusOfElement now startTs vp.2 e.Progress with
          | Except.error _ => Except.error ()
          | Except.ok status =>
            let summary := match e.Summary with
              | [] => STATE_NORMAL
              | s :: _ => s
            let description := match e.Description with
              | [] => STATE_NORMAL
              | d :: _ => d
            Except.ok ((affectedNetworks.map (fun an =>
              an.filterMap (fun lineRef =>
                if lineRef = some lookFor then
                  some { valid_from := startTime
                         valid_to := vp.2
                         summary := summary
                         description := description
                         status := status
                         progress := lowerString e.Progress }
                else none))).flatten)

/-- Sequential processing of the elements of one line; the first raised
exception aborts the rest, as the single try of api.py 101-211 wraps the
whole element loop for the line. -/
def collectElements (now : Int) (lookFor : String) :
    List PtSituationElement → Except Unit (List Item)
  | [] => Except.ok []
  | e :: rest => do
    let items ← processElement now lookFor e
    let restItems ← collectElements now lookFor rest
    pure (items ++ restItems)

/-- All items collected for one line across the SituationExchangeDelivery
list (api.py 106-108: sed loop flattened over the element lists). -/
def collectLineItems (now : Int) (lookFor : String)
    (sx : List (List PtSituationElement)) : Except Unit (List Item) :=
  collectElements now lookFor sx.flatten

/-- status_priority dict of api.py 196 (unknown statuses map to 3). -/
def statusPriority (s : String) : Nat :=
  if s = STATUS_OPEN then 0
  else if s = STATUS_PLANNED then 1
  else if s = STATUS_EXPIRED then 2
  else 3

/-- Start instant used by the sort key (api.py 197); items built by
processElement always carry a parseable valid_from, the default 0 is
unreachable there. -/
def startKey (x : Item) : Int := (parseTimestamp x.valid_from).getD 0

/-- Sort relation of api.py 197: ascending in the key pair
(status_priority, -start_timestamp); spelled without the negation. -/
def itemLe (a b : Item) : Prop :=
  statusPriority a.status < statusPriority b.status ∨
    (statusPriority a.status = statusPriority b.status ∧ startKey b ≤ startKey a)

instance : DecidableRel itemLe := fun _ _ =>
  inferInstanceAs (Decidable (_ ∨ _ ∧ _))

instance : IsTotal Item itemLe :=
  ⟨by intro a b; unfold itemLe; omega⟩

instance : IsTrans Item itemLe :=
  ⟨by intro a b c hab hbc; unfold itemLe at hab hbc ⊢; omega⟩

/-- items.sort(key=...) of api.py 197: a stable ascending sort by the
key pair, modelled by stable insertion sort. -/
def sortItems (items : List Item) : List Item :=
  List.insertionSort itemLe items

/-- Default entry appended when a line has no matching situation
(api.py 200-207). -/
def defaultItem (nowStr : String) : Item :=
  { valid_from := nowStr
    valid_to := none
    summary := STATE_NORMAL
    description := STATE_NORMAL
    status := STATUS_OPEN
    progress := "normal" }

/-- Placeholder entry stored when parsing a line raised
(api.py 214-221); it differs from the default entry only in progress. -/
def errorItem (nowStr : String) : Item :=
  { defaultItem nowStr with progress := "error" }

/-- The per-line body of _parse_response (api.py 98-221): collect the
matching items, then either sort them, substitute the default entry when
none matched, or substitute the parse-error placeholder when an
exception was raised anywhere while handling this line.  nowStr models
datetime.now().isoformat() taken at substitution time. -/
def processLine (now : Int) (nowStr : String) (lookFor : String)
    (sx : List (List PtSituationElement)) : List Item :=
  match collectLineItems now lookFor sx with
  | Except.error _ => [errorItem nowStr]
  | Except.ok items =>
    if items.isEmpty then [defaultItem nowStr] else sortItems items

/-- _parse_response (api.py 86-224): one entry per watched line, in
watch-list order (the Python dict is keyed by the line refs). -/
def parse_response (now : Int) (nowStr : String) (lines : List String)
    (sx : List (List PtSituationElement)) : List (String × List Item) :=
  match lines with
  | [] => []
  | l :: rest =>
    (l, processLine now nowStr l sx) :: parse_response now nowStr rest sx

/-!  sensor.py: EnturSXSensor.native_value (lines 131-214). -/

/-- The per-item admission test of the active-disruption loop
(sensor.py 148-183): keep an item only when its status is open, its
valid_from is truthy and parseable, the window has started, and either
no truthy valid_to exists or it parses and has not passed.  A parse
failure of either bound is the caught ValueError: the item is skipped. -/
def activeFilter (now : Int) (item : Item) : Bool :=
  if item.status ≠ STATUS_OPEN then false
  else if item.valid_from = "" then false
  else
    match parseTimestamp item.valid_from with
    | none => false
    | some startTs =>
      if now < startTs then false
      else if item.valid_to.getD "" ≠ "" then
        match parseTimestamp (item.valid_to.getD "") with
        | none => false
        | some endTs => if now > endTs then false else true
      else true

/-- The headline built from the filtered active list
(sensor.py 185-214): normal-service text when empty, the single summary
truncated to 255 characters otherwise, and for several the summaries
joined with " | ", replaced by the count-prefixed first summary when
the joined string exceeds 255 characters. -/
def headlineOf (active : List Item) : String :=
  match active with
  | [] => STATE_NORMAL
  | [item] =>
    if item.summary.length > 255 then strTake item.summary 252 ++ "..."
    else item.summary
  | a :: b :: rest =>
    let summaries := (a :: b :: rest).map (fun i => i.summary)
    let combined := String.intercalate " | " summaries
    if combined.length > 255 then
      let countPart := toString (a :: b :: rest).length ++ " active disruptions: "
      let maxSummaryLen := 255 - countPart.length - 3
      countPart ++ (strTake a.summary maxSummaryLen ++ "...")
    else combined

/-- EnturSXSensor.native_value for the stored list of one line: re-filter by
the clock, then build the headline. -/
def native_value (now : Int) (line_data : List Item) : String :=
  headlineOf (line_data.filter (fun i => activeFilter now i))

/-!  coordinator.py: _track_disruption_changes (lines 187-249). -/

/-- The composite disruption identity of coordinator.py 205:
truncated summary, status and valid_from joined with "|". -/
def disruptionKey (item : Item) : String :=
  strTake item.summary 50 ++ "|" ++ item.status ++ "|" ++ item.valid_from

/-- The per-line key set built at coordinator.py 193-208 (a Python set;
the empty deviation list gives the empty set). -/
def lineKeys (devs : List Item) : Finset String :=
  (devs.map disruptionKey).toFinset

/-- Lookup in the stored previous state with the empty-set default
(coordinator.py 213: self._previous_disruptions.get(line_ref, set())).
The coordinator initialises the store to the empty dict, modelled by
the empty association list. -/
def lookupKeys (prev : List (String × Finset String)) (line : String) :
    Finset String :=
  match prev.lookup line with
  | some s => s
  | none => ∅

/-- Appeared events for one line (coordinator.py 216: current - previous). -/
def appearedFor (prev : List (String × Finset String)) (line : String)
    (devs : List Item) : Finset String :=
  lineKeys devs \ lookupKeys prev line

/-- Disappeared events for one line (coordinator.py 234: previous - current). -/
def disappearedFor (prev : List (String × Finset String)) (line : String)
    (devs : List Item) : Finset String :=
  lookupKeys prev line \ lineKeys devs

/-!  coordinator.py: the polling controller
(_async_update_data lines 57-126, _handle_throttle lines 128-185). -/

/-- The five scalar parameters the controller reads from const.py.
Intervals and instants are rationals because the multiplier is the
non-integer 2.5. -/
structure BackoffConfig where
  initial : ℚ
  multiplier : ℚ
  maxBackoff : ℚ
  resetAfter : ℚ
  updateInterval : ℚ
deriving DecidableEq, Repr

/-- Modelled from the spec: const.py under src does not define
BACKOFF_INITIAL, BACKOFF_MULTIPLIER, BACKOFF_MAX and BACKOFF_RESET_AFTER
even though coordinator.py imports them; the concrete values are the
ones the tests of the repository pin down (tests/validate_backoff.py and
tests/test_throttle_backoff.py): 120 s initial, multiplier 2.5, 600 s
cap, 1800 s reset window, together with UPDATE_INTERVAL = 60 s from
const.py. -/
def defaultConfig : BackoffConfig :=
  { initial := 120
    multiplier := 5 / 2
    maxBackoff := 600
    resetAfter := 1800
    updateInterval := 60 }

/-- The mutable coordinator fields touched by the update cycle
(coordinator.py 49-52 plus self.update_interval). -/
structure CoordState where
  throttle_count : Nat
  last_success_time : Option ℚ
  in_backoff : Bool
  cached_data : Option (List (String × List Item))
  update_interval : ℚ
deriving DecidableEq, Repr

/-- Coordinator state right after __init__ (coordinator.py 32-55). -/
def initState (cfg : BackoffConfig) : CoordState :=
  { throttle_count := 0
    last_success_time := none
    in_backoff := false
    cached_data := none
    update_interval := cfg.updateInterval }

/-- The back-off interval for the given consecutive-throttle count
(coordinator.py 137-140). -/
def backoffTime (cfg : BackoffConfig) (count : Nat) : ℚ :=
  min (cfg.initial * cfg.multiplier ^ (count - 1)) cfg.maxBackoff

/-- What one fetch attempt came back with: parsed data, an HTTP 429, or
any other transport or parse failure. -/
inductive FetchResult where
  | success (data : List (String × List Item))
  | rateLimited
  | otherError
deriving DecidableEq

/-- _handle_throttle (coordinator.py 128-185): bump the counter, enter
back-off, lengthen the interval, then either serve the cached snapshot
or raise UpdateFailed when none exists. -/
def handleThrottle (cfg : BackoffConfig) (s : CoordState) :
    CoordState × Except Unit (List (String × List Item)) :=
  let count := s.throttle_count + 1
  let s1 : CoordState :=
    { s with throttle_count := count
             in_backoff := true
             update_interval := backoffTime cfg count }
  match s.cached_data with
  | some d => (s1, Except.ok d)
  | none => (s1, Except.error ())

/-- One update cycle (_async_update_data, coordinator.py 57-126) as a
state transformer over the fetch outcome; Except.error models a raised
UpdateFailed.  On success the interval is restored when in back-off, the
throttle counter is cleared when the gap since the previous success
exceeds the reset window, and the cache is replaced.  A non-429 failure
leaves every modelled field untouched and raises. -/
def updateStep (cfg : BackoffConfig) (now : ℚ) (s : CoordState)
    (r : FetchResult) : CoordState × Except Unit (List (String × List Item)) :=
  match r with
  | FetchResult.success data =>
    let s1 := if s.in_backoff then
        { s with in_backoff := false, update_interval := cfg.updateInterval }
      else s
    let s2 := match s1.last_success_time with
      | some t =>
        if now - t > cfg.resetAfter then { s1 with throttle_count := 0 } else s1
      | none => s1
    ({ s2 with last_success_time := some now, cached_data := some data },
      Except.ok data)
  | FetchResult.rateLimited => handleThrottle cfg s
  | FetchResult.otherError => (s, Except.error ())

/-- A sequence of update cycles at the given instants. -/
def runTrace (cfg : BackoffConfig) (s : CoordState) :
    List (ℚ × FetchResult) → CoordState
  | [] => s
  | (t, r) :: rest => runTrace cfg (updateStep cfg t s r).1 rest

/-!  Helper lemmas shared by several proofs. -/

/-- The empty string never parses to an instant. -/
theorem parseTimestamp_empty : parseTimestamp "" = none := rfl

/-- Admitted items have status open. -/
theorem activeFilter_open (now : Int) (i : Item)
    (h : activeFilter now i = true) : i.status = STATUS_OPEN := by
  by_cases hst : i.status = STATUS_OPEN
  · exact hst
  · simp [activeFilter, hst] at h

/-- Stable sorting keeps the list length. -/
theorem sortItems_length (items : List Item) :
    (sortItems items).length = items.length :=
  (List.perm_insertionSort itemLe items).length_eq

/-- The state component of a throttled cycle, independent of the cache. -/
theorem handleThrottle_fst (cfg : BackoffConfig) (s : CoordState) :
    (handleThrottle cfg s).1 =
      { s with throttle_count := s.throttle_count + 1, in_backoff := true,
               update_interval := backoffTime cfg (s.throttle_count + 1) } := by
  unfold handleThrottle
  cases s.cached_data <;> rfl

/-!  Claims. -/

/-- C1: the status computed by the normalizer follows the priority rule of
api.py 134-160: before the validity start the status is PLANNED regardless
of the progress code; otherwise, past a present and parseable validity end
it is EXPIRED; otherwise it is EXPIRED exactly when the lowercased progress
code equals "closed" and OPEN (active) otherwise.  Nothing relates the two
bounds, so the rule also holds when the validity end lies chronologically
before the validity start. -/
theorem status_priority_rule (now startTs : Int) (endTime : Option String)
    (progress : String) :
    (now < startTs →
      statusOfElement now startTs endTime progress = Except.ok STATUS_PLANNED)
    ∧ (∀ es endTs, endTime = some es → parseTimestamp es = some endTs →
        ¬ now < startTs → now > endTs →
        statusOfElement now startTs endTime progress = Except.ok STATUS_EXPIRED)
    ∧ (∀ es endTs, endTime = some es → parseTimestamp es = some endTs →
        ¬ now < startTs → ¬ now > endTs →
        statusOfElement now startTs endTime progress =
          Except.ok (if lowerString progress = "closed" then STATUS_EXPIRED
            else STATUS_OPEN))
    ∧ (endTime = none → ¬ now < startTs →
        statusOfElement now startTs endTime progress =
          Except.ok (if lowerString progress = "closed" then STATUS_EXPIRED
            else STATUS_OPEN)) := by
  refine ⟨fun h => by simp [statusOfElement, h], ?_, ?_, ?_⟩
  · intro es endTs hsome hp hnow hpast
    have hne : es ≠ "" := by
      intro he; rw [he, parseTimestamp_empty] at hp; cases hp
    subst hsome
    simp [statusOfElement, hnow, hne, hp, hpast]
  · intro es endTs hsome hp hnow hpast
    have hne : es ≠ "" := by
      intro he; rw [he, parseTimestamp_empty] at hp; cases hp
    subst hsome
    by_cases hc : lowerString progress = "closed" <;>
      simp [statusOfElement, hnow, hne, hp, hpast, hc]
  · intro hnone hnow
    subst hnone
    by_cases hc : lowerString progress = "closed" <;>
      simp [statusOfElement, hnow, hc]

/-- Witness for status_priority_rule at concrete inputs, one per branch;
the EXPIRED branch uses a validity end (1) chronologically before the
validity start (3). -/
theorem status_priority_rule_witness :
    statusOfElement 2 3 (some "9") "closed" = Except.ok STATUS_PLANNED
    ∧ statusOfElement 5 3 (some "1") "Open" = Except.ok STATUS_EXPIRED
    ∧ statusOfElement 5 3 (some "9") "CLOSED" =
        Except.ok (if lowerString "CLOSED" = "closed" then STATUS_EXPIRED
          else STATUS_OPEN)
    ∧ statusOfElement 5 3 none "Open" =
        Except.ok (if lowerString "Open" = "closed" then STATUS_EXPIRED
          else STATUS_OPEN) :=
  ⟨(status_priority_rule 2 3 (some "9") "closed").1 (by decide),
   (status_priority_rule 5 3 (some "1") "Open").2.1 "1" 1 rfl rfl
     (by decide) (by decide),
   (status_priority_rule 5 3 (some "9") "CLOSED").2.2.1 "9" 9 rfl rfl
     (by decide) (by decide),
   (status_priority_rule 5 3 none "Open").2.2.2 rfl (by decide)⟩

/-- C4: every produced per-line list is pairwise ordered by relevance:
the status priority (open 0, planned 1, expired 2) never decreases along
the list, so all open entries precede all planned entries, which precede
all expired entries; and on equal status the parsed validity start never
increases (most recent first). -/
theorem line_list_sorted (now : Int) (nowStr lookFor : String)
    (sx : List (List PtSituationElement)) :
    (processLine now nowStr lookFor sx).Pairwise (fun a b =>
      statusPriority a.status ≤ statusPriority b.status ∧
      (statusPriority a.status = statusPriority b.status →
        startKey b ≤ startKey a)) := by
  have himp : ∀ a b : Item, itemLe a b →
      statusPriority a.status ≤ statusPriority b.status ∧
      (statusPriority a.status = statusPriority b.status →
        startKey b ≤ startKey a) := by
    intro a b hab; unfold itemLe at hab; omega
  unfold processLine
  cases h : collectLineItems now lookFor sx with
  | error e => simp
  | ok items =>
    by_cases hi : items.isEmpty
    · simp [hi]
    · simpa [hi] using
        (List.sorted_insertionSort itemLe items).imp
          (fun hab => himp _ _ hab)

/-- C6: a line whose normalization succeeds with no matching situation gets
exactly the single synthetic normal-service entry, whose status is open and
whose summary is the normal-service text; and no produced per-line list is
ever empty. -/
theorem empty_line_gets_default (now : Int) (nowStr lookFor : String)
    (sx : List (List PtSituationElement))
    (h : collectLineItems now lookFor sx = Except.ok []) :
    processLine now nowStr lookFor sx = [defaultItem nowStr]
    ∧ (defaultItem nowStr).status = STATUS_OPEN
    ∧ (defaultItem nowStr).summary = STATE_NORMAL
    ∧ ∀ (sx2 : List (List PtSituationElement)),
        processLine now nowStr lookFor sx2 ≠ [] := by
  refine ⟨by simp [processLine, h], rfl, rfl, ?_⟩
  intro sx2
  unfold processLine
  cases h2 : collectLineItems now lookFor sx2 with
  | error e => simp
  | ok items =>
    by_cases hi : items.isEmpty
    · simp [hi]
    · intro hempty
      simp [hi] at hempty
      have hlen := sortItems_length items
      rw [hempty] at hlen
      cases items with
      | nil => simp at hi
      | cons x xs => simp at hlen

/-- Witness for empty_line_gets_default: an empty delivery list matches
nothing, and the line receives the synthetic entry. -/
theorem empty_line_gets_default_witness :
    collectLineItems 7 "RUT:Line:5" [] = Except.ok []
    ∧ processLine 7 "ts0" "RUT:Line:5" [] = [defaultItem "ts0"] :=
  ⟨rfl, (empty_line_gets_default 7 "ts0" "RUT:Line:5" [] rfl).1⟩

/-- C3 counterexample: two raw entries affect line L; the first is valid and
on its own yields a real item, the second raises while its start timestamp
is parsed.  The produced list for L is only the parse-error placeholder:
the valid entry is not preserved, contradicting the claim that a failing
entry never aborts the remaining entries and that the placeholder appears
only when no other valid situation exists for the line. -/
theorem entry_failure_aborts_line :
    processLine 100 "T" "L"
      [[⟨"open", some [[some "L"]], [(some "10", none)], ["Works"], []⟩,
        ⟨"", some [[some "L"]], [(some "oops", none)], [], []⟩]]
      = [errorItem "T"]
    ∧ processLine 100 "T" "L"
        [[⟨"open", some [[some "L"]], [(some "10", none)], ["Works"], []⟩]]
      = [{ valid_from := "10", valid_to := none, summary := "Works",
           description := STATE_NORMAL, status := STATUS_OPEN,
           progress := "open" }] :=
  ⟨rfl, rfl⟩

/-- C3 (amended): an exception while extracting one raw entry aborts the
processing of that line only: the line is replaced by the single
parse-error placeholder (all previously collected entries for it are
discarded), while every other watched line is still processed, each line
independently of the others. -/
theorem per_line_error_recovery (now : Int) (nowStr : String)
    (lines : List String) (sx : List (List PtSituationElement)) (l : String)
    (h : collectLineItems now l sx = Except.error ()) :
    processLine now nowStr l sx = [errorItem nowStr]
    ∧ parse_response now nowStr lines sx =
        lines.map (fun l2 => (l2, processLine now nowStr l2 sx)) := by
  constructor
  · simp [processLine, h]
  · induction lines with
    | nil => simp [parse_response]
    | cons a rest ih => simp [parse_response, ih]

/-- C5: the effective summary of a line: the normal-service text when no
currently active situation passes the admission test (in particular when
every stored entry is planned or expired); the single admitted summary,
truncated to the 255-character display limit with an ellipsis; and for
several admitted situations their summaries joined with " | ", replaced by
the count-prefixed first summary, truncated to fit, when the joined string
exceeds the limit. -/
theorem effective_summary_rule (now : Int) (line_data : List Item) :
    ((∀ i ∈ line_data, i.status ≠ STATUS_OPEN) →
      native_value now line_data = STATE_NORMAL)
    ∧ (line_data.filter (fun i => activeFilter now i) = [] →
        native_value now line_data = STATE_NORMAL)
    ∧ (∀ item, line_data.filter (fun i => activeFilter now i) = [item] →
        native_value now line_data =
          if item.summary.length > 255 then strTake item.summary 252 ++ "..."
          else item.summary)
    ∧ (∀ a b rest,
        line_data.filter (fun i => activeFilter now i) = a :: b :: rest →
        native_value now line_data =
          (let summaries := (a :: b :: rest).map (fun i => i.summary)
           let combined := String.intercalate " | " summaries
           if combined.length > 255 then
             toString (a :: b :: rest).length ++ " active disruptions: "
               ++ (strTake a.summary
                     (255 -
                       (toString (a :: b :: rest).length
                         ++ " active disruptions: ").length - 3)
                   ++ "...")
           else combined)) := by
  refine ⟨?_, ?_, ?_, ?_⟩
  · intro hall
    have hfil : line_data.filter (fun i => activeFilter now i) = [] := by
      rw [List.filter_eq_nil_iff]
      intro i hi hact
      exact hall i hi (activeFilter_open now i hact)
    simp [native_value, hfil, headlineOf]
  · intro hfil
    simp [native_value, hfil, headlineOf]
  · intro item hfil
    simp [native_value, hfil, headlineOf]
  · intro a b rest hfil
    simp [native_value, hfil, headlineOf]

/-- Witness for effective_summary_rule: a planned-only list gives the
normal-service text, and a single admitted entry gives its summary. -/
theorem effective_summary_rule_witness :
    native_value 100 [⟨"10", none, "Delay", "d", "planned", "p"⟩]
      = STATE_NORMAL
    ∧ native_value 100 [⟨"10", none, "Delay", "d", "open", "p"⟩]
      = (if ("Delay" : String).length > 255 then strTake "Delay" 252 ++ "..."
         else "Delay") :=
  ⟨(effective_summary_rule 100 [⟨"10", none, "Delay", "d", "planned", "p"⟩]).1
     (by decide),
   (effective_summary_rule 100 [⟨"10", none, "Delay", "d", "open", "p"⟩]).2.2.1
     ⟨"10", none, "Delay", "d", "open", "p"⟩ rfl⟩

/-- C10: the admission test applied at read time accepts a stored item
exactly when its status is open AND the evaluation instant lies inside its
validity window: the valid_from field is truthy, parses, and is not in the
future, and any truthy valid_to parses and has not passed.  Consequently an
item with a missing valid_from or an unparseable bound is silently dropped
rather than raising, and a cached open situation whose window has since
closed is not admitted into the displayed headline. -/
theorem active_admission_characterization (now : Int) (item : Item) :
    activeFilter now item = true ↔
      item.status = STATUS_OPEN ∧ item.valid_from ≠ "" ∧
        ∃ startTs, parseTimestamp item.valid_from = some startTs ∧
          startTs ≤ now ∧
          (item.valid_to.getD "" = "" ∨
            ∃ endTs, parseTimestamp (item.valid_to.getD "") = some endTs ∧
              now ≤ endTs) := by
  by_cases hst : item.status = STATUS_OPEN
  · by_cases hvf : item.valid_from = ""
    · simp [activeFilter, hst, hvf]
    · cases hp : parseTimestamp item.valid_from with
      | none => simp [activeFilter, hst, hvf, hp]
      | some startTs =>
        by_cases hnow : now < startTs
        · constructor
          · intro hact
            exfalso
            simp [activeFilter, hst, hvf, hp, hnow] at hact
          · rintro ⟨-, -, t, ht, hle, -⟩
            injection ht with ht
            subst ht
            exact absurd hle (by omega)
        · by_cases hvt : item.valid_to.getD "" = ""
          · simp [activeFilter, hst, hvf, hp, hnow, hvt]
            try omega
          · cases hq : parseTimestamp (item.valid_to.getD "") with
            | none =>
              simp [activeFilter, hst, hvf, hp, hnow, hvt, hq]
            | some endTs =>
              by_cases hpast : now > endTs
              · simp [activeFilter, hst, hvf, hp, hnow, hvt, hq, hpast]
                try omega
              · simp [activeFilter, hst, hvf, hp, hnow, hvt, hq, hpast]
                try omega
  · simp [activeFilter, hst]

/-- Witness for per_line_error_recovery at the concrete malformed entry. -/
theorem per_line_error_recovery_witness :
    collectLineItems 100 "L"
      [[⟨"", some [[some "L"]], [(some "oops", none)], [], []⟩]]
      = Except.error ()
    ∧ processLine 100 "T" "L"
        [[⟨"", some [[some "L"]], [(some "oops", none)], [], []⟩]]
      = [errorItem "T"] :=
  ⟨rfl,
   (per_line_error_recovery 100 "T" ["L"]
     [[⟨"", some [[some "L"]], [(some "oops", none)], [], []⟩]] "L" rfl).1⟩

/-- C2 counterexample: on the first ever run the previous store is the
empty dict, and diffing it against a current snapshot holding one entry for
one line emits an appeared event: the appeared set is nonempty,
contradicting the claim that the first run emits zero appeared events for
every current snapshot. -/
theorem first_run_reports_appeared :
    appearedFor [] "SKY:Line:1" [defaultItem "0"] ≠ (∅ : Finset String) := by
  decide

/-- C2 (amended): on the first ever run (previous store empty) the change
detector emits zero disappeared events, but it reports every disruption of
the current snapshot as appeared: for any line the appeared set equals the
full current key set. -/
theorem first_run_events (line : String) (devs : List Item) :
    disappearedFor [] line devs = ∅
    ∧ appearedFor [] line devs = lineKeys devs := by
  constructor
  · simp [disappearedFor, lookupKeys, List.lookup]
  · simp [appearedFor, lookupKeys, List.lookup]

/-- C7: a rate-limited cycle with an empty cache raises the update failure;
with a cache present it returns exactly the cached snapshot and keeps it;
and the cached copy is replaced only by a successful cycle: both a
throttled and a failed cycle leave it unchanged, while a successful one
installs the fresh data. -/
theorem cache_replacement_rule (cfg : BackoffConfig) (now : ℚ)
    (s : CoordState) :
    (s.cached_data = none →
      (updateStep cfg now s FetchResult.rateLimited).2 = Except.error ())
    ∧ (∀ d, s.cached_data = some d →
        (updateStep cfg now s FetchResult.rateLimited).2 = Except.ok d)
    ∧ ((updateStep cfg now s FetchResult.rateLimited).1.cached_data
        = s.cached_data)
    ∧ ((updateStep cfg now s FetchResult.otherError).1.cached_data
        = s.cached_data)
    ∧ ((updateStep cfg now s FetchResult.otherError).2 = Except.error ())
    ∧ (∀ d, (updateStep cfg now s (FetchResult.success d)).1.cached_data
        = some d) := by
  refine ⟨?_, ?_, ?_, rfl, rfl, ?_⟩
  · intro hc
    simp [updateStep, handleThrottle, hc]
  · intro d hc
    simp [updateStep, handleThrottle, hc]
  · cases hc : s.cached_data <;> simp [updateStep, handleThrottle, hc]
  · intro d
    simp [updateStep]

/-- Witness for cache_replacement_rule: the very first poll has no cache,
so a rate limit there raises. -/
theorem cache_replacement_rule_witness :
    (initState defaultConfig).cached_data = none
    ∧ (updateStep defaultConfig 0 (initState defaultConfig)
        FetchResult.rateLimited).2 = Except.error () :=
  ⟨rfl, (cache_replacement_rule defaultConfig 0 (initState defaultConfig)).1
    rfl⟩

/-- C8: a rate-limited cycle increments the consecutive-throttle count to
k = old count + 1 and sets the interval to exactly
min(initial * multiplier^(k-1), max); with multiplier at least one and a
nonnegative initial the interval is monotone in the count, never exceeds
the cap, and two successive rate limits never shorten it; and from the
fresh NORMAL state the first three rate limits produce the interval
sequence [initial, initial*mult, min(initial*mult^2, max)], concretely
[120, 300, 600] with the configured constants. -/
theorem backoff_progression (cfg : BackoffConfig) (hm : 1 ≤ cfg.multiplier)
    (hi : 0 ≤ cfg.initial) :
    (∀ (now : ℚ) (s : CoordState),
        (updateStep cfg now s FetchResult.rateLimited).1.throttle_count
          = s.throttle_count + 1
        ∧ (updateStep cfg now s FetchResult.rateLimited).1.update_interval
          = min (cfg.initial * cfg.multiplier ^ s.throttle_count)
              cfg.maxBackoff)
    ∧ (∀ j k, j ≤ k → backoffTime cfg j ≤ backoffTime cfg k)
    ∧ (∀ k, backoffTime cfg k ≤ cfg.maxBackoff)
    ∧ (∀ (now1 now2 : ℚ) (s : CoordState),
        (updateStep cfg now1 s FetchResult.rateLimited).1.update_interval ≤
          (updateStep cfg now2
            ((updateStep cfg now1 s FetchResult.rateLimited).1)
            FetchResult.rateLimited).1.update_interval)
    ∧ ((updateStep defaultConfig 0 (initState defaultConfig)
          FetchResult.rateLimited).1.update_interval
        = min (defaultConfig.initial * defaultConfig.multiplier ^ 0)
            defaultConfig.maxBackoff
      ∧ (runTrace defaultConfig (initState defaultConfig)
          [(0, FetchResult.rateLimited),
           (120, FetchResult.rateLimited)]).update_interval
        = min (defaultConfig.initial * defaultConfig.multiplier ^ 1)
            defaultConfig.maxBackoff
      ∧ (runTrace defaultConfig (initState defaultConfig)
          [(0, FetchResult.rateLimited), (120, FetchResult.rateLimited),
           (420, FetchResult.rateLimited)]).update_interval
        = min (defaultConfig.initial * defaultConfig.multiplier ^ 2)
            defaultConfig.maxBackoff
      ∧ (updateStep defaultConfig 0 (initState defaultConfig)
          FetchResult.rateLimited).1.update_interval = 120
      ∧ (runTrace defaultConfig (initState defaultConfig)
          [(0, FetchResult.rateLimited),
           (120, FetchResult.rateLimited)]).update_interval = 300
      ∧ (runTrace defaultConfig (initState defaultConfig)
          [(0, FetchResult.rateLimited), (120, FetchResult.rateLimited),
           (420, FetchResult.rateLimited)]).update_interval = 600) := by
  have hmono : ∀ j k, j ≤ k → backoffTime cfg j ≤ backoffTime cfg k := by
    intro j k hjk
    unfold backoffTime
    refine min_le_min ?_ le_rfl
    have hpow : cfg.multiplier ^ (j - 1) ≤ cfg.multiplier ^ (k - 1) := by
      apply pow_le_pow_right₀ hm
      omega
    exact mul_le_mul_of_nonneg_left hpow hi
  refine ⟨?_, hmono, ?_, ?_, ?_⟩
  · intro now s
    constructor
    · simp [updateStep, handleThrottle_fst]
    · simp [updateStep, handleThrottle_fst, backoffTime]
  · intro k
    exact min_le_right _ _
  · intro now1 now2 s
    simp only [updateStep, handleThrottle_fst]
    exact hmono _ _ (by omega)
  · refine ⟨?_, ?_, ?_, ?_, ?_, ?_⟩ <;>
      norm_num [runTrace, updateStep, handleThrottle, backoffTime,
        initState, defaultConfig, min_def]

/-- Witness for backoff_progression: the configured constants satisfy the
hypotheses, and the interval after one rate limit never exceeds the
interval after three. -/
theorem backoff_progression_witness :
    (1 ≤ defaultConfig.multiplier ∧ 0 ≤ defaultConfig.initial)
    ∧ backoffTime defaultConfig 1 ≤ backoffTime defaultConfig 3 :=
  ⟨⟨by norm_num [defaultConfig], by norm_num [defaultConfig]⟩,
   (backoff_progression defaultConfig (by norm_num [defaultConfig])
     (by norm_num [defaultConfig])).2.1 1 3 (by norm_num)⟩

/-- C9 counterexample: the consecutive-throttle counter is cleared without
any quiet period of sustained success.  In this trace a success at instant
0 is followed by rate limits at 60 and 1859 (counter 2, each failure);
the next success at 1861 -- two seconds after a failure -- clears the
counter to 0, because more than BACKOFF_RESET_AFTER = 1800 seconds passed
since the previous success, even though that whole gap contained only
failures.  This contradicts the claim that the counter is reset only after
a full quiet period of sustained, uninterrupted success. -/
theorem counter_reset_without_quiet_success :
    (runTrace defaultConfig (initState defaultConfig)
      [(0, FetchResult.success []), (60, FetchResult.rateLimited),
       (1859, FetchResult.rateLimited)]).throttle_count = 2
    ∧ (runTrace defaultConfig (initState defaultConfig)
        [(0, FetchResult.success []), (60, FetchResult.rateLimited),
         (1859, FetchResult.rateLimited),
         (1861, FetchResult.success [])]).throttle_count = 0 := by
  constructor <;>
    norm_num [runTrace, updateStep, handleThrottle, backoffTime,
      initState, defaultConfig, min_def]

/-- C9 (amended): on a successful cycle while in back-off the poll interval
resets to the baseline immediately and the back-off flag clears; the
consecutive-throttle counter is not necessarily reset at that moment: it
ends up zero exactly when it already was zero or the gap since the
previous successful cycle exceeds the reset window -- regardless of
whether the gap contained failures. -/
theorem success_reset_rule (cfg : BackoffConfig) (now : ℚ) (s : CoordState)
    (d : List (String × List Item)) (hb : s.in_backoff = true) :
    (updateStep cfg now s (FetchResult.success d)).1.update_interval
      = cfg.updateInterval
    ∧ (updateStep cfg now s (FetchResult.success d)).1.in_backoff = false
    ∧ ((updateStep cfg now s (FetchResult.success d)).1.throttle_count = 0
        ↔ (s.throttle_count = 0 ∨
            ∃ t, s.last_success_time = some t ∧ now - t > cfg.resetAfter)) := by
  cases hl : s.last_success_time with
  | none =>
    refine ⟨by simp [updateStep, hb, hl], by simp [updateStep, hb, hl], ?_⟩
    simp [updateStep, hb, hl]
  | some t =>
    by_cases hgap : now - t > cfg.resetAfter
    · refine ⟨by simp [updateStep, hb, hl, hgap],
        by simp [updateStep, hb, hl, hgap], ?_⟩
      simp [updateStep, hb, hl, hgap]
    · refine ⟨by simp [updateStep, hb, hl, hgap],
        by simp [updateStep, hb, hl, hgap], ?_⟩
      simp [updateStep, hb, hl, hgap]

/-- Witness for success_reset_rule: a back-off state with a recent previous
success keeps its nonzero counter while the interval returns to baseline. -/
theorem success_reset_rule_witness :
    ({ throttle_count := 2, last_success_time := some 0, in_backoff := true,
       cached_data := some [], update_interval := 300 } : CoordState).in_backoff
      = true
    ∧ (updateStep defaultConfig 60
        { throttle_count := 2, last_success_time := some 0, in_backoff := true,
          cached_data := some [], update_interval := 300 }
        (FetchResult.success [])).1.update_interval
      = defaultConfig.updateInterval :=
  ⟨rfl,
   (success_reset_rule defaultConfig 60
     { throttle_count := 2, last_success_time := some 0, in_backoff := true,
       cached_data := some [], update_interval := 300 } [] rfl).1⟩

end EnturSX
